import Mathlib

/-!
Verification of the source-s3 v4 bootstrap entry point
(`airbyte-integrations/connectors/source-s3/v4_main.py`).

The file under verification is a 40-line bootstrap: `get_source` extracts a
catalog path from the argument list, tries to construct a `SourceS3`
connector, and on construction failure prints one structured Airbyte error
trace message and returns `None`; the `__main__` driver calls `get_source`
on `sys.argv[1:]` and, when a source was returned, calls `launch` with the
source and the same argument list.

The external collaborators (`AirbyteEntrypoint.extract_catalog`, the
`SourceS3` constructor, `datetime.now().timestamp()`, `launch`,
`traceback.format_exc()`) are modelled as an environment of oracles; the
bootstrap itself is embedded faithfully, with an event trace recording
each construction attempt, each message printed to standard output, and
each launcher invocation.
-/

/-- The message type tag of an Airbyte message.  The source only uses
`Type.TRACE`; `Type` is a Lean keyword, hence the name `MessageType`. -/
inductive MessageType
  | TRACE
  deriving DecidableEq, Repr

/-- The trace type tag.  The source only uses `TraceType.ERROR`. -/
inductive TraceType
  | ERROR
  deriving DecidableEq, Repr

/-- `AirbyteErrorTraceMessage(message=..., stack_trace=...)`. -/
structure AirbyteErrorTraceMessage where
  message : String
  stack_trace : String
  deriving DecidableEq, Repr

/-- `AirbyteTraceMessage(type=..., emitted_at=..., error=...)`. -/
structure AirbyteTraceMessage where
  type : TraceType
  emitted_at : ℤ
  error : AirbyteErrorTraceMessage
  deriving DecidableEq, Repr

/-- `AirbyteMessage(type=..., trace=...)`. -/
structure AirbyteMessage where
  type : MessageType
  trace : AirbyteTraceMessage
  deriving DecidableEq, Repr

/-- Python `int(q)`: truncation toward zero of a rational. -/
def pyInt (q : ℚ) : ℤ :=
  if 0 ≤ q then ⌊q⌋ else ⌈q⌉

/-- The fixed human-readable message text printed on the failure path
(source line 29). -/
def errorMessageText : String :=
  "Error starting the sync. This could be due to an invalid configuration or catalog. Please contact Support for assistance."

/-- The error message record built on the failure path (source lines 21-32):
an `AirbyteMessage` of type `TRACE` whose trace is of type `ERROR`, carries
the given epoch-milliseconds timestamp, the fixed message text, and the
traceback text as `stack_trace`. -/
def mkErrorMessage (emitted : ℤ) (tb : String) : AirbyteMessage :=
  { type := MessageType.TRACE
  , trace :=
    { type := TraceType.ERROR
    , emitted_at := emitted
    , error := { message := errorMessageText, stack_trace := tb } } }

/-- The environment of external collaborators, over an opaque connector
handle type `H`.  A `String` on the error side of an `Except` is the
traceback text of a raised exception (`traceback.format_exc()` for the
handler; the propagated exception itself when a call is not guarded). -/
structure Env (H : Type) where
  /-- `AirbyteEntrypoint.extract_catalog(args)`: returns a catalog path or
  `None`, or raises. -/
  extract_catalog : List String → Except String (Option String)
  /-- `SourceS3(SourceS3StreamReader(), Config, catalog_path, cursor_cls=Cursor)`:
  returns a connector handle, or raises. -/
  construct : Option String → Except String H
  /-- `datetime.now().timestamp()`: the wall clock in seconds since the
  epoch, read at the moment of failure. -/
  now_timestamp : ℚ

/-- Observable events of one run of the bootstrap. -/
inductive Event (H : Type)
  | extractCall (args : List String)
  | constructCall (catalog_path : Option String)
  | printMsg (m : AirbyteMessage)
  | launchCall (source : H) (args : List String)
  deriving DecidableEq, Repr

/-- `get_source(args)` (source lines 16-34).  Returns the Python result
(`Except.error tb` when an exception propagates out of `get_source`,
`Except.ok` of the returned value otherwise) together with the trace of
events.  Extraction happens before the `try` block, so an exception from
`extract_catalog` propagates; only the constructor call is guarded, and
its handler prints one error message and returns `None`. -/
def get_source {H : Type} (env : Env H) (args : List String) :
    Except String (Option H) × List (Event H) :=
  match env.extract_catalog args with
  | .error tb => (.error tb, [.extractCall args])
  | .ok catalog_path =>
    match env.construct catalog_path with
    | .ok source =>
      (.ok (some source), [.extractCall args, .constructCall catalog_path])
    | .error tb =>
      (.ok none,
       [.extractCall args, .constructCall catalog_path,
        .printMsg (mkErrorMessage (pyInt (env.now_timestamp * 1000)) tb)])

/-- The `__main__` driver (source lines 37-41): `_args = sys.argv[1:]`,
`source = get_source(_args)`, and `launch(source, _args)` if a source was
returned (a constructed connector object is truthy in Python, `None` is
falsy). -/
def main_driver {H : Type} (env : Env H) (argv : List String) :
    Except String Unit × List (Event H) :=
  let args := argv.drop 1
  match get_source env args with
  | (.error tb, evs) => (.error tb, evs)
  | (.ok (some source), evs) => (.ok (), evs ++ [.launchCall source args])
  | (.ok none, evs) => (.ok (), evs)

/-- The messages written to standard output during a run. -/
def stdoutOf {H : Type} (evs : List (Event H)) : List AirbyteMessage :=
  evs.filterMap fun e =>
    match e with
    | .printMsg m => some m
    | _ => none

/-- The number of connector construction attempts during a run. -/
def constructCount {H : Type} (evs : List (Event H)) : ℕ :=
  evs.countP fun e =>
    match e with
    | .constructCall _ => true
    | _ => false

/-- The launcher invocations during a run, each with the handle and the
argument list it received. -/
def launchesOf {H : Type} (evs : List (Event H)) : List (H × List String) :=
  evs.filterMap fun e =>
    match e with
    | .launchCall s a => some (s, a)
    | _ => none

/-! Concrete environments used by witnesses and counterexamples. -/

/-- An environment in which extraction finds a catalog path and the
connector constructor raises. -/
def envConstructFails : Env Unit :=
  { extract_catalog := fun _ => Except.ok (some "catalog.json")
  , construct := fun _ =>
      Except.error "Traceback (most recent call last): construction failed"
  , now_timestamp := 1700000000 }

/-- An environment in which extraction finds a catalog path and the
connector constructor succeeds. -/
def envConstructOk : Env Unit :=
  { extract_catalog := fun _ => Except.ok (some "catalog.json")
  , construct := fun _ => Except.ok ()
  , now_timestamp := 1700000000 }

/-- An environment in which the catalog extraction itself raises. -/
def envExtractRaises : Env Unit :=
  { extract_catalog := fun _ =>
      Except.error "Traceback (most recent call last): extraction failed"
  , construct := fun _ => Except.ok ()
  , now_timestamp := 1700000000 }

/-- An environment in which extraction yields no path and construction with
an absent path raises. -/
def envEmptyCatalog : Env Unit :=
  { extract_catalog := fun _ => Except.ok none
  , construct := fun _ =>
      Except.error "Traceback (most recent call last): missing catalog"
  , now_timestamp := 12 }

/-- First of a pair of environments that agree on the empty argument list. -/
def envDetA : Env Unit :=
  { extract_catalog := fun _ => Except.ok (some "c")
  , construct := fun _ => Except.error "Traceback: boom"
  , now_timestamp := 42 }

/-- Second of a pair of environments that agree on the empty argument list
but differ elsewhere. -/
def envDetB : Env Unit :=
  { extract_catalog := fun a =>
      if a.isEmpty then Except.ok (some "c") else Except.error "other"
  , construct := fun _ => Except.error "Traceback: boom"
  , now_timestamp := 42 }

/-! Claim theorems. -/

/-- C1: for every failure raised during connector construction, `get_source`
catches it, prints exactly one structured error record (carrying the current
timestamp truncated to epoch milliseconds and the failure traceback text),
returns the absent value, and does not propagate the failure (the result is
`Except.ok`, never `Except.error`). -/
theorem get_source_catches_construction_failure {H : Type} (env : Env H)
    (args : List String) (catalog_path : Option String) (tb : String)
    (hx : env.extract_catalog args = Except.ok catalog_path)
    (hc : env.construct catalog_path = Except.error tb) :
    (get_source env args).1 = Except.ok none ∧
    stdoutOf (get_source env args).2 =
      [mkErrorMessage (pyInt (env.now_timestamp * 1000)) tb] := by
  simp [get_source, hx, hc, stdoutOf]

/-- Witness for C1 at a concrete environment and argument list. -/
theorem get_source_catches_construction_failure_witness :
    envConstructFails.extract_catalog ["--catalog", "catalog.json"] =
      Except.ok (some "catalog.json") ∧
    envConstructFails.construct (some "catalog.json") =
      Except.error "Traceback (most recent call last): construction failed" ∧
    ((get_source envConstructFails ["--catalog", "catalog.json"]).1 =
       Except.ok none ∧
     stdoutOf (get_source envConstructFails ["--catalog", "catalog.json"]).2 =
       [mkErrorMessage (pyInt (envConstructFails.now_timestamp * 1000))
          "Traceback (most recent call last): construction failed"]) :=
  ⟨rfl, rfl,
   get_source_catches_construction_failure envConstructFails
     ["--catalog", "catalog.json"] (some "catalog.json")
     "Traceback (most recent call last): construction failed" rfl rfl⟩

/-- C2: every error record emitted by `get_source` is exactly the record
built by `mkErrorMessage`: type `TRACE`, trace type `ERROR`, `emitted_at`
the clock in epoch milliseconds, and the message field bit-for-bit the
fixed support string. -/
theorem emitted_error_record_shape {H : Type} (env : Env H)
    (args : List String) (m : AirbyteMessage)
    (hm : m ∈ stdoutOf (get_source env args).2) :
    (∃ tb, m = mkErrorMessage (pyInt (env.now_timestamp * 1000)) tb) ∧
    m.type = MessageType.TRACE ∧
    m.trace.type = TraceType.ERROR ∧
    m.trace.error.message = errorMessageText := by
  cases hx : env.extract_catalog args with
  | error tb => simp [get_source, hx, stdoutOf] at hm
  | ok catalog_path =>
    cases hc : env.construct catalog_path with
    | ok source => simp [get_source, hx, hc, stdoutOf] at hm
    | error tb =>
      simp [get_source, hx, hc, stdoutOf] at hm
      subst hm
      exact ⟨⟨tb, rfl⟩, rfl, rfl, rfl⟩

/-- Witness for C2 at a concrete environment. -/
theorem emitted_error_record_shape_witness :
    (∃ tb, mkErrorMessage (pyInt (envConstructFails.now_timestamp * 1000))
        "Traceback (most recent call last): construction failed" =
          mkErrorMessage (pyInt (envConstructFails.now_timestamp * 1000)) tb) ∧
    (mkErrorMessage (pyInt (envConstructFails.now_timestamp * 1000))
        "Traceback (most recent call last): construction failed").type =
      MessageType.TRACE ∧
    (mkErrorMessage (pyInt (envConstructFails.now_timestamp * 1000))
        "Traceback (most recent call last): construction failed").trace.type =
      TraceType.ERROR ∧
    (mkErrorMessage (pyInt (envConstructFails.now_timestamp * 1000))
        "Traceback (most recent call last): construction failed").trace.error.message =
      errorMessageText :=
  emitted_error_record_shape envConstructFails ["--config"] _ (List.Mem.head _)

/-- C3 counterexample: when the catalog-path extraction itself raises, the
failure propagates out of `get_source` (the call is outside the guarded
block): the result is the propagated error, not the absent value, and no
error record is written to standard output. -/
theorem extraction_failure_propagates :
    (get_source envExtractRaises ["--config"]).1 =
      Except.error "Traceback (most recent call last): extraction failed" ∧
    stdoutOf (get_source envExtractRaises ["--config"]).2 = [] :=
  ⟨rfl, rfl⟩

/-- C3 amended: for any argument list for which extraction returns (possibly
with no path) and connector construction then raises with a non-empty
traceback text, `get_source` returns the absent value and exactly one
well-formed error record with the fixed message text and a non-empty
stack-trace string is written to standard output. -/
theorem get_source_absent_with_one_record {H : Type} (env : Env H)
    (args : List String) (catalog_path : Option String) (tb : String)
    (hx : env.extract_catalog args = Except.ok catalog_path)
    (hc : env.construct catalog_path = Except.error tb)
    (htb : tb ≠ "") :
    (get_source env args).1 = Except.ok none ∧
    (stdoutOf (get_source env args).2).length = 1 ∧
    ∀ m ∈ stdoutOf (get_source env args).2,
      m.trace.error.message = errorMessageText ∧
      m.trace.error.stack_trace ≠ "" := by
  have hval : get_source env args =
      (Except.ok none,
       [Event.extractCall args, Event.constructCall catalog_path,
        Event.printMsg (mkErrorMessage (pyInt (env.now_timestamp * 1000)) tb)]) := by
    simp [get_source, hx, hc]
  rw [hval]
  refine ⟨rfl, rfl, ?_⟩
  intro m hm
  simp [stdoutOf] at hm
  subst hm
  exact ⟨rfl, htb⟩

/-- Witness for the amended C3 at a concrete environment where extraction
yields no path and construction raises. -/
theorem get_source_absent_with_one_record_witness :
    envEmptyCatalog.extract_catalog ["--config", "c.json"] = Except.ok none ∧
    envEmptyCatalog.construct none =
      Except.error "Traceback (most recent call last): missing catalog" ∧
    "Traceback (most recent call last): missing catalog" ≠ "" ∧
    ((get_source envEmptyCatalog ["--config", "c.json"]).1 = Except.ok none ∧
     (stdoutOf (get_source envEmptyCatalog ["--config", "c.json"]).2).length = 1 ∧
     ∀ m ∈ stdoutOf (get_source envEmptyCatalog ["--config", "c.json"]).2,
       m.trace.error.message = errorMessageText ∧
       m.trace.error.stack_trace ≠ "") :=
  ⟨rfl, rfl, by decide,
   get_source_absent_with_one_record envEmptyCatalog ["--config", "c.json"]
     none "Traceback (most recent call last): missing catalog" rfl rfl
     (by decide)⟩

/-- C4: whenever acquisition succeeds, the driver invokes the launcher
exactly once, with the constructed handle and exactly the original argument
sequence `sys.argv[1:]`, forwarded verbatim. -/
theorem driver_launches_once_on_success {H : Type} (env : Env H)
    (argv : List String) (source : H)
    (h : (get_source env (argv.drop 1)).1 = Except.ok (some source)) :
    launchesOf (main_driver env argv).2 = [(source, argv.drop 1)] := by
  simp only [List.drop_one] at h ⊢
  cases hx : env.extract_catalog argv.tail with
  | error tb => simp [get_source, hx] at h
  | ok catalog_path =>
    cases hc : env.construct catalog_path with
    | error tb => simp [get_source, hx, hc] at h
    | ok s =>
      simp [get_source, hx, hc] at h
      subst h
      have hval : get_source env argv.tail =
          (Except.ok (some s),
           [Event.extractCall argv.tail, Event.constructCall catalog_path]) := by
        simp [get_source, hx, hc]
      simp [main_driver, List.drop_one, hval, launchesOf]

/-- Witness for C4 at a concrete environment and argument vector. -/
theorem driver_launches_once_on_success_witness :
    (get_source envConstructOk (["prog", "--config", "c"].drop 1)).1 =
      Except.ok (some ()) ∧
    launchesOf (main_driver envConstructOk ["prog", "--config", "c"]).2 =
      [((), ["--config", "c"])] :=
  ⟨rfl,
   driver_launches_once_on_success envConstructOk ["prog", "--config", "c"]
     () rfl⟩

/-- C5: for any argument list that allows successful construction,
`get_source` returns the constructed handle and writes nothing to standard
output. -/
theorem get_source_success_no_output {H : Type} (env : Env H)
    (args : List String) (catalog_path : Option String) (source : H)
    (hx : env.extract_catalog args = Except.ok catalog_path)
    (hc : env.construct catalog_path = Except.ok source) :
    (get_source env args).1 = Except.ok (some source) ∧
    stdoutOf (get_source env args).2 = [] := by
  simp [get_source, hx, hc, stdoutOf]

/-- Witness for C5 at a concrete environment. -/
theorem get_source_success_no_output_witness :
    envConstructOk.extract_catalog ["--config", "c"] =
      Except.ok (some "catalog.json") ∧
    envConstructOk.construct (some "catalog.json") = Except.ok () ∧
    ((get_source envConstructOk ["--config", "c"]).1 = Except.ok (some ()) ∧
     stdoutOf (get_source envConstructOk ["--config", "c"]).2 = []) :=
  ⟨rfl, rfl,
   get_source_success_no_output envConstructOk ["--config", "c"]
     (some "catalog.json") () rfl rfl⟩

/-- C6: when `get_source` returns the absent value, the driver ends with the
error message already emitted inside `get_source` and invokes the launcher
zero times. -/
theorem driver_no_launch_on_absent {H : Type} (env : Env H)
    (argv : List String)
    (h : (get_source env (argv.drop 1)).1 = Except.ok none) :
    main_driver env argv = (Except.ok (), (get_source env (argv.drop 1)).2) ∧
    launchesOf (main_driver env argv).2 = [] := by
  simp only [List.drop_one] at h ⊢
  cases hx : env.extract_catalog argv.tail with
  | error tb => simp [get_source, hx] at h
  | ok catalog_path =>
    cases hc : env.construct catalog_path with
    | ok s => simp [get_source, hx, hc] at h
    | error tb =>
      have hval : get_source env argv.tail =
          (Except.ok none,
           [Event.extractCall argv.tail, Event.constructCall catalog_path,
            Event.printMsg (mkErrorMessage (pyInt (env.now_timestamp * 1000)) tb)]) := by
        simp [get_source, hx, hc]
      simp [main_driver, List.drop_one, hval, launchesOf]

/-- Witness for C6 at a concrete environment and argument vector. -/
theorem driver_no_launch_on_absent_witness :
    (get_source envConstructFails (["prog"].drop 1)).1 = Except.ok none ∧
    (main_driver envConstructFails ["prog"] =
       (Except.ok (), (get_source envConstructFails (["prog"].drop 1)).2) ∧
     launchesOf (main_driver envConstructFails ["prog"]).2 = []) :=
  ⟨rfl, driver_no_launch_on_absent envConstructFails ["prog"] rfl⟩

/-- For a non-negative rational, Python truncation agrees with the floor and
is non-negative. -/
theorem pyInt_nonneg (q : ℚ) (h : 0 ≤ q) : 0 ≤ pyInt q := by
  unfold pyInt
  rw [if_pos h]
  exact Int.le_floor.mpr (by exact_mod_cast h)

/-- C7: in every emitted error record, `emitted_at` equals the integer
truncation of the clock reading (in seconds) times 1000, and is
non-negative whenever the clock reading is non-negative. -/
theorem emitted_at_is_truncated_clock {H : Type} (env : Env H)
    (args : List String) (h0 : 0 ≤ env.now_timestamp) (m : AirbyteMessage)
    (hm : m ∈ stdoutOf (get_source env args).2) :
    m.trace.emitted_at = pyInt (env.now_timestamp * 1000) ∧
    0 ≤ m.trace.emitted_at := by
  cases hx : env.extract_catalog args with
  | error tb => simp [get_source, hx, stdoutOf] at hm
  | ok catalog_path =>
    cases hc : env.construct catalog_path with
    | ok s => simp [get_source, hx, hc, stdoutOf] at hm
    | error tb =>
      simp [get_source, hx, hc, stdoutOf] at hm
      subst hm
      refine ⟨rfl, pyInt_nonneg _ ?_⟩
      exact mul_nonneg h0 (by norm_num)

/-- Witness for C7 at a concrete environment. -/
theorem emitted_at_is_truncated_clock_witness :
    (0 : ℚ) ≤ envEmptyCatalog.now_timestamp ∧
    ((mkErrorMessage (pyInt (envEmptyCatalog.now_timestamp * 1000))
        "Traceback (most recent call last): missing catalog").trace.emitted_at =
      pyInt (envEmptyCatalog.now_timestamp * 1000) ∧
     0 ≤ (mkErrorMessage (pyInt (envEmptyCatalog.now_timestamp * 1000))
        "Traceback (most recent call last): missing catalog").trace.emitted_at) :=
  ⟨by norm_num [envEmptyCatalog],
   emitted_at_is_truncated_clock envEmptyCatalog ["z"]
     (by norm_num [envEmptyCatalog]) _ (List.Mem.head _)⟩

/-- C8: for the empty argument list, `get_source` performs no argument
validation and does not short-circuit: exactly one construction attempt is
made whatever the constructor does, and when construction with the absent
path raises, the absent value is returned and one error record is
written. -/
theorem empty_args_no_short_circuit {H : Type} (env : Env H)
    (hx : env.extract_catalog [] = Except.ok none) :
    constructCount (get_source env []).2 = 1 ∧
    ∀ tb, env.construct none = Except.error tb →
      (get_source env []).1 = Except.ok none ∧
      stdoutOf (get_source env []).2 =
        [mkErrorMessage (pyInt (env.now_timestamp * 1000)) tb] := by
  constructor
  · cases hc : env.construct none with
    | ok s => simp [get_source, hx, hc, constructCount]
    | error tb => simp [get_source, hx, hc, constructCount]
  · intro tb hc
    simp [get_source, hx, hc, stdoutOf]

/-- Witness for C8 at a concrete environment. -/
theorem empty_args_no_short_circuit_witness :
    envEmptyCatalog.extract_catalog [] = Except.ok none ∧
    (constructCount (get_source envEmptyCatalog []).2 = 1 ∧
     ∀ tb, envEmptyCatalog.construct none = Except.error tb →
       (get_source envEmptyCatalog []).1 = Except.ok none ∧
       stdoutOf (get_source envEmptyCatalog []).2 =
         [mkErrorMessage (pyInt (envEmptyCatalog.now_timestamp * 1000)) tb]) :=
  ⟨rfl, empty_args_no_short_circuit envEmptyCatalog rfl⟩

/-- C9: in every process invocation, at most one connector construction is
attempted and at most one message is written to standard output, on every
execution path through `get_source` and the driver. -/
theorem at_most_one_construct_and_emit {H : Type} (env : Env H)
    (argv : List String) :
    constructCount (main_driver env argv).2 ≤ 1 ∧
    (stdoutOf (main_driver env argv).2).length ≤ 1 := by
  cases hx : env.extract_catalog argv.tail with
  | error tb =>
    have hval : get_source env argv.tail =
        (Except.error tb, [Event.extractCall argv.tail]) := by
      simp [get_source, hx]
    simp [main_driver, List.drop_one, hval, constructCount, stdoutOf]
  | ok catalog_path =>
    cases hc : env.construct catalog_path with
    | ok s =>
      have hval : get_source env argv.tail =
          (Except.ok (some s),
           [Event.extractCall argv.tail, Event.constructCall catalog_path]) := by
        simp [get_source, hx, hc]
      simp [main_driver, List.drop_one, hval, constructCount, stdoutOf]
    | error tb =>
      have hval : get_source env argv.tail =
          (Except.ok none,
           [Event.extractCall argv.tail, Event.constructCall catalog_path,
            Event.printMsg
              (mkErrorMessage (pyInt (env.now_timestamp * 1000)) tb)]) := by
        simp [get_source, hx, hc]
      simp [main_driver, List.drop_one, hval, constructCount, stdoutOf]

/-- C10: `get_source` is deterministic relative to its environment: two runs
with equal argument lists whose collaborators agree at the points used
(same extraction outcome, same construction outcome on the extracted path,
same clock) return the same result and produce the same event trace, hence
identical standard output. -/
theorem get_source_deterministic {H : Type} (env1 env2 : Env H)
    (args : List String)
    (hx : env1.extract_catalog args = env2.extract_catalog args)
    (hc : ∀ p, env1.extract_catalog args = Except.ok p →
        env1.construct p = env2.construct p)
    (ht : env1.now_timestamp = env2.now_timestamp) :
    get_source env1 args = get_source env2 args := by
  cases h1 : env1.extract_catalog args with
  | error tb =>
    have h2 : env2.extract_catalog args = Except.error tb := by rw [← hx, h1]
    simp [get_source, h1, h2]
  | ok p =>
    have h2 : env2.extract_catalog args = Except.ok p := by rw [← hx, h1]
    have hcp : env1.construct p = env2.construct p := hc p h1
    cases hc1 : env1.construct p with
    | ok s =>
      have hc2 : env2.construct p = Except.ok s := by rw [← hcp, hc1]
      simp [get_source, h1, h2, hc1, hc2]
    | error tb =>
      have hc2 : env2.construct p = Except.error tb := by rw [← hcp, hc1]
      simp [get_source, h1, h2, hc1, hc2, ht]

/-- Witness for C10: two distinct concrete environments that agree on the
empty argument list produce identical runs. -/
theorem get_source_deterministic_witness :
    envDetA.extract_catalog [] = envDetB.extract_catalog [] ∧
    envDetA.now_timestamp = envDetB.now_timestamp ∧
    get_source envDetA [] = get_source envDetB [] :=
  ⟨rfl, rfl,
   get_source_deterministic envDetA envDetB [] rfl (fun _ _ => rfl) rfl⟩
